import Mathlib

/-
Verification development for the metisoft-database-util repository.

The JavaScript sources (src/DatabaseConnection.js, src/databaseUtil.js) are
shallowly embedded below. JavaScript values are modelled by the inductive
type Js; objects are association lists of fields in insertion order, which
is the order lodash forEach visits own enumerable properties. Asynchronous
code (bluebird promise chains) is modelled by explicit settlement values of
type Except Js Js together with explicit state or event traces; the
underlying pg driver and pool are supplied as data (oracles) since they are
external collaborators.
-/

/-- Model of a JavaScript value. Objects keep their fields as an
association list in insertion order. -/
inductive Js where
  | undefined
  | null
  | bool (b : Bool)
  | num (n : Int)
  | str (s : String)
  | arr (elems : List Js)
  | obj (fields : List (String × Js))

/-- JavaScript truthiness: undefined, null, false, 0 and the empty string
are falsy; every array and object is truthy. -/
def Js.truthy : Js → Bool
  | .undefined => false
  | .null => false
  | .bool b => b
  | .num n => n != 0
  | .str s => s != ""
  | .arr _ => true
  | .obj _ => true

/-- JavaScript property access obj.k: the first field named k, or
undefined when the field is absent or the value is not an object. -/
def Js.getField : Js → String → Js
  | .obj fields, k =>
    match fields.find? (fun p => p.1 == k) with
    | some p => p.2
    | none => .undefined
  | _, _ => .undefined

/-- Model of the lodash own-property check used as _.has(value, k). -/
def Js.hasField (v : Js) (k : String) : Bool :=
  match v with
  | .obj fields => (fields.find? (fun p => p.1 == k)).isSome
  | _ => false

/-- Model of _.isString. -/
def Js.isString : Js → Bool
  | .str _ => true
  | _ => false

/-- Model of the JavaScript test on v.length being positive: arrays and strings have a
numeric length; on any other value v.length is undefined and the
comparison is false. -/
def Js.lengthPos : Js → Bool
  | .arr xs => decide (0 < xs.length)
  | .str s => decide (0 < s.length)
  | _ => false

/-- Model of the JavaScript element access v[0]. -/
def Js.index0 : Js → Js
  | .arr (r :: _) => r
  | .str s => if s.length == 0 then .undefined else .str (s.take 1)
  | _ => .undefined

/-- Translation of DatabaseConnection.prototype.turnQueryResultIntoRows:
returns queryResult.rows when the rows field is present, else an empty
array. -/
def turnQueryResultIntoRows (queryResult : Js) : Js :=
  if queryResult.hasField "rows" then queryResult.getField "rows"
  else .arr []

/-- Translation of DatabaseConnection.prototype.turnRowsIntoSingleResult:
returns rows[0] when rows is truthy with positive length, else an empty
object. -/
def turnRowsIntoSingleResult (rows : Js) : Js :=
  if rows.truthy && rows.lengthPos then rows.index0
  else .obj []

/-- Translation of DatabaseConnection.prototype.rollbackTransaction.
The settlement of the underlying ROLLBACK statement, that is of
makeClientQueryPromise(client, "ROLLBACK", []), is supplied as
rollbackResult. The first component is the settlement of the promise the
method returns; the second lists the clients it called release on, in
order. The catch handler releases the client and returns undefined, so a
failed ROLLBACK settles the returned promise successfully with
undefined. -/
def rollbackTransaction (client : Nat) (rollbackResult : Except Js Js) :
    Except Js Js × List Nat :=
  match rollbackResult with
  | .ok r => (.ok r, [])
  | .error _ => (.ok .undefined, [client])

/-- Translation of DatabaseConnection.prototype.__DI_squelQuery. The
injected query function fnQuery is supplied as data; the second component
of the result lists every call made to it, as (queryString, args, client)
triples. An empty or absent text short-circuits to a promise resolved
with an empty array. -/
def DI_squelQuery (fnQuery : Js → Js → Option Nat → Except Js Js)
    (q : Js) (client : Option Nat) :
    Except Js Js × List (Js × Js × Option Nat) :=
  let queryStr := q.getField "text"
  let args := q.getField "values"
  let args := if args.truthy then args else Js.arr []
  if queryStr.truthy then
    (fnQuery queryStr args client, [(queryStr, args, client)])
  else
    (.ok (.arr []), [])

/-- Resource event on the pooled connection: acquiring a client from the
pool, calling release on a client, or the returned promise settling. -/
inductive DbEvent where
  | acquire (c : Nat)
  | release (c : Nat)
  | settle
deriving DecidableEq

/-- State threaded through the promise chain of the managed query path:
the mutable local variable client of DI_simpleQuery, and the trace of
resource events so far. -/
structure QueryState where
  client : Option Nat
  events : List DbEvent
deriving DecidableEq

/-- Bluebird then: on a fulfilled promise run the handler, on a rejected
promise pass the rejection through. -/
def pThen {a b : Type} (p : Except Js a × QueryState)
    (f : a → QueryState → Except Js b × QueryState) : Except Js b × QueryState :=
  match p with
  | (.ok v, s) => f v s
  | (.error e, s) => (.error e, s)

/-- Bluebird catch: on a rejected promise run the handler, on a fulfilled
promise pass the value through. -/
def pCatch {a : Type} (p : Except Js a × QueryState)
    (h : Js → QueryState → Except Js a × QueryState) : Except Js a × QueryState :=
  match p with
  | (.ok v, s) => (.ok v, s)
  | (.error e, s) => h e s

/-- Bluebird finally: run the handler for its effects and keep the
original settlement. -/
def pFinally {a : Type} (p : Except Js a × QueryState)
    (g : QueryState → QueryState) : Except Js a × QueryState :=
  (p.1, g p.2)

/-- Translation of DatabaseConnection.prototype.__DI_simpleQuery. The
pool is supplied as data: connectResult is the settlement of
pool.connect(), and queryResult c is the settlement of
makeClientQueryPromise on client c (covering both statement errors and
any failure thrown during execution after the client was assigned).
Returns the settlement of the promise the method returns together with
the final state; the trace ends with a settle event appended when the
returned promise settles. -/
def DI_simpleQuery (connectResult : Except Js Nat)
    (queryResult : Nat → Except Js Js) : Except Js Js × QueryState :=
  let s0 : QueryState := { client := none, events := [] }
  let connected : Except Js Nat × QueryState :=
    match connectResult with
    | .ok c => (.ok c, { s0 with events := s0.events ++ [.acquire c] })
    | .error e => (.error e, s0)
  let step1 := pThen connected (fun c s =>
    let s := { s with client := some c }
    (queryResult c, s))
  let step2 := pThen step1 (fun r s =>
    match s.client with
    | some c => (.ok r, { client := none, events := s.events ++ [.release c] })
    | none => (.ok r, s))
  let step3 := pCatch step2 (fun e s =>
    match s.client with
    | some c => (.error e, { client := none, events := s.events ++ [.release c] })
    | none => (.error e, s))
  let step4 := pFinally step3 (fun s =>
    match s.client with
    | some c => { s with events := s.events ++ [.release c] }
    | none => s)
  (step4.1, { step4.2 with events := step4.2.events ++ [.settle] })

/-- Which injected execution function was selected, mirroring the local
variable fnQuery of DI_runBasicService. -/
inductive QueryMode where
  | one
  | many
deriving DecidableEq

/-- Invocation counts of the caller-supplied functions and of the two
injected execution functions during one run of DI_runBasicService. -/
structure SvcCounts where
  validateCalls : Nat
  sanitizeCalls : Nat
  dbValidateCalls : Nat
  makeQueryCalls : Nat
  oneCalls : Nat
  manyCalls : Nat
deriving DecidableEq

/-- Configuration record for DI_runBasicService, mirroring
runBasicServiceConfig. fnValidate is modelled as returning its boolean
result together with the error codes it appends, in order, to the
initially empty mutable errorCodes array. Absent or non-function
fnSanitizeRequest and fnDbValidate are modelled as none. fnDbValidate is
asynchronous and may reject; its settlement is the Except value.
configWithDone, when present, carries an optional client. -/
structure RunBasicServiceConfig where
  userData : Js
  req : Js
  errorCodeMap : Js
  fnValidate : Js → Bool × List String
  fnSanitizeRequest : Option (Js → Js)
  fnDbValidate : Option (Js → Js → Option Nat → Except Js Js)
  fnMakeQuery : Js → Js → Js
  oneOrMany : String
  client : Option Nat
  configWithDone : Option (Option Nat)

/-- The Error thrown on an unrecognized oneOrMany value. -/
def serverRequestErrorJs : Js :=
  .obj [("message", .str "SERVER_REQUEST_ERROR")]

/-- The Error thrown when fnValidate fails, carrying the collected error
codes on its errors property. -/
def validationErrorJs (codes : List String) : Js :=
  .obj [("message", .str "VALIDATION_ERROR"),
        ("__errors", .arr (codes.map .str))]

/-- The client used by DI_runBasicService: config.client when given,
else the client of config.configWithDone when that is given, else
none. -/
def effectiveClient (config : RunBasicServiceConfig) : Option Nat :=
  match config.client with
  | some c => some c
  | none =>
    match config.configWithDone with
    | some cwd => cwd
    | none => none

/-- The request value used downstream of sanitization: the result of
fnSanitizeRequest when it is supplied as a function, else the original
request. -/
def sanitizedReq (config : RunBasicServiceConfig) : Js :=
  match config.fnSanitizeRequest with
  | some f => f config.req
  | none => config.req

/-- The database-level validation function actually called: the supplied
fnDbValidate when it is a function, else the default that resolves
immediately with an empty object. -/
def effectiveDbValidate (config : RunBasicServiceConfig) :
    Js → Js → Option Nat → Except Js Js :=
  match config.fnDbValidate with
  | some f => f
  | none => fun _ _ _ => .ok (.obj [])

/-- Translation of DatabaseConnection.prototype.__DI_runBasicService.
The two injected execution functions are supplied as data. Returns the
settlement of the returned promise together with the invocation counts
of the injected and caller-supplied functions. The mode dispatch selects
fnQuery before anything runs; an unrecognized mode rejects with
SERVER_REQUEST_ERROR before validation. A false fnValidate rejects with
VALIDATION_ERROR carrying the appended codes; otherwise sanitization,
database validation, query construction and the selected execution
function run in order, rejections from the latter two passing through
unchanged. -/
def DI_runBasicService (config : RunBasicServiceConfig)
    (fnSquelQueryReturningOne fnSquelQueryReturningMany :
      Js → Option Nat → Except Js Js) :
    Except Js Js × SvcCounts :=
  let client := effectiveClient config
  let fnQuery : Option QueryMode :=
    if config.oneOrMany = "one" then some .one
    else if config.oneOrMany = "many" then some .many
    else none
  match fnQuery with
  | none => (.error serverRequestErrorJs, ⟨0, 0, 0, 0, 0, 0⟩)
  | some mode =>
    let vres := config.fnValidate config.req
    if vres.1 then
      let req := sanitizedReq config
      let sanitizeCalls :=
        match config.fnSanitizeRequest with
        | some _ => 1
        | none => 0
      let dbValidateCalls :=
        match config.fnDbValidate with
        | some _ => 1
        | none => 0
      match effectiveDbValidate config config.userData req client with
      | .error e => (.error e, ⟨1, sanitizeCalls, dbValidateCalls, 0, 0, 0⟩)
      | .ok _ =>
        let q := config.fnMakeQuery config.userData req
        match mode with
        | .one =>
          (fnSquelQueryReturningOne q client,
           ⟨1, sanitizeCalls, dbValidateCalls, 1, 1, 0⟩)
        | .many =>
          (fnSquelQueryReturningMany q client,
           ⟨1, sanitizeCalls, dbValidateCalls, 1, 0, 1⟩)
    else
      (.error (validationErrorJs vres.2), ⟨1, 0, 0, 0, 0, 0⟩)

/-- A DatabaseConnection object: the fields set by the constructor plus
the pool installed by startPool, identified by a pool id. -/
structure DBConn where
  name : String
  config : Js
  pool : Option Nat

/-- An entry of the process-wide DatabaseConnection.__connections map: a
full connection object, or the pool-only record that startPool writes
before getConnection overwrites it. -/
inductive RegEntry where
  | conn (c : DBConn)
  | poolOnly (poolId : Nat)

/-- The process-wide mutable state: the named-connection registry, a
fresh-id counter for pools, and the number of pools started so far. -/
structure GlobalState where
  connections : List (String × RegEntry)
  nextPoolId : Nat
  poolsStarted : Nat

/-- Lookup of the registry entry for a name, mirroring both
hasOwnProperty and the read of the connections map. -/
def lookupEntry (l : List (String × RegEntry)) (name : String) : Option RegEntry :=
  match l.find? (fun p => p.1 == name) with
  | some p => some p.2
  | none => none

/-- Assignment into the registry map: replace the entry for the name or
append a new one. -/
def setEntry (l : List (String × RegEntry)) (name : String) (e : RegEntry) :
    List (String × RegEntry) :=
  match l with
  | [] => [(name, e)]
  | p :: rest =>
    if p.1 == name then (name, e) :: rest
    else p :: setEntry rest name e

/-- Translation of DatabaseConnection.prototype.__startPool: creates a
new pg pool (modelled by a fresh pool id), installs the error handlers
(pure logging, no effect modelled), stores the pool on the connection
object, and writes a pool-only record for the name into the connections
map. -/
def startPool (st : GlobalState) (dbc : DBConn) (name : String) :
    DBConn × GlobalState :=
  let poolId := st.nextPoolId
  ({ dbc with pool := some poolId },
   { connections := setEntry st.connections name (.poolOnly poolId),
     nextPoolId := st.nextPoolId + 1,
     poolsStarted := st.poolsStarted + 1 })

/-- Translation of DatabaseConnection.__loadConnectionConfigFromFile.
The filesystem is an external collaborator, supplied as an oracle from
the pair (name, mode) to the optional configuration found at the path
that pair determines; a missing file throws the configuration-not-found
Error. -/
def loadConnectionConfigFromFile (files : String → String → Option Js)
    (name mode : String) : Except String Js :=
  match files name mode with
  | some cfg => .ok cfg
  | none => .error "Configuration file not found"

/-- The mode actually used by getConnection: a falsy mode argument is
replaced by asDependency. -/
def defaultedMode (mode : Option String) : String :=
  match mode with
  | some m => if m = "" then "asDependency" else m
  | none => "asDependency"

/-- The configuration getConnection resolves for a name not yet in the
registry: the override when it is given and truthy, else the
configuration file selected by name and mode. -/
def resolveConfig (files : String → String → Option Js)
    (name mode : String) (configOverride : Option Js) : Except String Js :=
  match configOverride with
  | some c =>
    if c.truthy then .ok c
    else loadConnectionConfigFromFile files name mode
  | none => loadConnectionConfigFromFile files name mode

/-- Translation of DatabaseConnection.getConnection. Returns the entry
registered under the name together with the updated global state, or the
thrown Error. A name already present short-circuits to the cached entry;
otherwise the configuration is resolved, a connection object is built,
startPool runs, and the connection object is written over the pool-only
record startPool left in the map. -/
def getConnection (files : String → String → Option Js) (st : GlobalState)
    (name : String) (mode : Option String) (configOverride : Option Js) :
    Except String (RegEntry × GlobalState) :=
  let mode := defaultedMode mode
  match lookupEntry st.connections name with
  | some e => .ok (e, st)
  | none =>
    match resolveConfig files name mode configOverride with
    | .error e => .error e
    | .ok config =>
      let dbc : DBConn := { name := name, config := config, pool := none }
      let (dbc, st) := startPool st dbc name
      let st := { st with connections := setEntry st.connections name (.conn dbc) }
      .ok (.conn dbc, st)

/-- First index at or after i whose character satisfies p, mirroring a
global regex exec that starts searching at lastIndex. -/
def findFrom (p : Char → Bool) (cs : List Char) (i : Nat) : Option Nat :=
  match (cs.drop i).findIdx? p with
  | some j => some (i + j)
  | none => none

/-- Translation of the inner helper spliceInUnderscore of jsName2SqlName:
name.slice(0, idx) + underscore + lowercased name[idx] + name.slice(idx + 1). -/
def spliceUnderscore (cs : List Char) (idx : Nat) : List Char :=
  cs.take idx ++ ['_', (cs.getD idx ' ').toLower] ++ cs.drop (idx + 1)

/-- Translation of the uppercase-letter loop of jsName2SqlName. Each
exec of the global single-character uppercase regex finds the next
uppercase letter at or after lastIndex and sets lastIndex past it; a
match at index zero is skipped, otherwise the splice inserts an
underscore and the manual lastIndex increment compensates for the grown
string. Fuelled recursion; the fuel given by jsName2SqlName exceeds the
number of possible matches. -/
def upperPass : Nat → List Char → Nat → List Char
  | 0, cs, _ => cs
  | fuel + 1, cs, lastIndex =>
    match findFrom Char.isUpper cs lastIndex with
    | none => cs
    | some idx =>
      if idx = 0 then upperPass fuel cs (idx + 1)
      else upperPass fuel (spliceUnderscore cs idx) (idx + 2)

/-- One exec of the global digit-run regex: the first digit at or after
i together with the length of the maximal digit run there. -/
def digitRunFrom (cs : List Char) (i : Nat) : Option (Nat × Nat) :=
  match findFrom Char.isDigit cs i with
  | none => none
  | some idx => some (idx, ((cs.drop idx).takeWhile Char.isDigit).length)

/-- Translation of the digit-run loop of jsName2SqlName, analogous to
upperPass: exec leaves lastIndex past the match, a match at index zero
is skipped, and the splice before a later match adds one to
lastIndex. -/
def numeralPass : Nat → List Char → Nat → List Char
  | 0, cs, _ => cs
  | fuel + 1, cs, lastIndex =>
    match digitRunFrom cs lastIndex with
    | none => cs
    | some (idx, len) =>
      if idx = 0 then numeralPass fuel cs (idx + len)
      else numeralPass fuel (spliceUnderscore cs idx) (idx + len + 1)

/-- Translation of databaseUtil.jsName2SqlName: the uppercase pass
followed by the digit-run pass over the mutated name. -/
def jsName2SqlName (name : String) : String :=
  let cs := name.data
  let cs := upperPass (2 * cs.length + 2) cs 0
  let cs := numeralPass (2 * cs.length + 2) cs 0
  String.mk cs

/-- Translation of the sprintf format used by
genWhereLikePrefixConditions to build one condition string from the SQL
field name and the parameter placeholder number. -/
def likeCond (sqlField : String) (argNumber : Nat) : String :=
  "\"" ++ sqlField ++ "\" LIKE $" ++ toString argNumber ++ " || '%'"

/-- Translation of the lodash forEach loop of
genWhereLikePrefixConditions: criteria entries are visited in order, a
string-valued entry pushes one condition (with the pre-incremented
argument number) and one argument, every other entry is skipped. -/
def genWhereLoop : List (String × Js) → Nat → List String → List Js →
    List String × List Js
  | [], _, conditions, args => (conditions, args)
  | (field, value) :: rest, argNumber, conditions, args =>
    if value.isString then
      let sqlField := jsName2SqlName field
      let condStr := likeCond sqlField (argNumber + 1)
      genWhereLoop rest (argNumber + 1) (conditions ++ [condStr]) (args ++ [value])
    else
      genWhereLoop rest argNumber conditions args

/-- Translation of databaseUtil.genWhereLikePrefixConditions at the
level of values: a falsy args argument becomes a fresh empty array, a
given args array is deep-cloned (a value copy here) before the loop
appends to it. -/
def genWhereLikePrefixConditions (criteria : List (String × Js))
    (args : Option (List Js)) : List String × List Js :=
  let args :=
    match args with
    | none => []
    | some a => a
  genWhereLoop criteria args.length [] args

/-- Translation of databaseUtil.genWhereLikePrefixConditions with the
array heap made explicit, to state what the function does to the array
the caller passed. The store is the list of allocated arrays; argsRef is
the reference the caller passes (none for a falsy argument). A falsy
argument allocates a fresh empty array; otherwise cloneDeep allocates a
fresh copy of the referenced array, and the loop pushes only into that
fresh array. Returns the conditions, the reference of the returned args
array, and the final store. -/
def genWhereLikePrefixConditionsStore (criteria : List (String × Js))
    (store : List (List Js)) (argsRef : Option Nat) :
    List String × Nat × List (List Js) :=
  let init : List Js :=
    match argsRef with
    | none => []
    | some r => store.getD r []
  let ref := store.length
  let out := genWhereLoop criteria init.length [] init
  (out.1, ref, store ++ [out.2])

/-- The conditions the loop of genWhereLikePrefixConditions appends: one
per string-valued criteria entry, in order, numbering placeholders from
one past the starting argument number. -/
theorem genWhereLoop_conditions (criteria : List (String × Js)) :
    ∀ (n : Nat) (cs : List String) (a : List Js),
      (genWhereLoop criteria n cs a).1
        = cs ++ ((criteria.filter (fun p => p.2.isString)).enumFrom (n + 1)).map
            (fun p => likeCond (jsName2SqlName p.2.1) p.1) := by
  induction criteria with
  | nil => intro n cs a; simp [genWhereLoop]
  | cons hd tl ih =>
    intro n cs a
    obtain ⟨field, value⟩ := hd
    by_cases hs : value.isString
    · simp [genWhereLoop, hs, ih, List.enumFrom_cons]
    · simp [genWhereLoop, hs, ih]

/-- The arguments array the loop of genWhereLikePrefixConditions builds:
the starting array extended with the values of the string-valued
criteria entries, in order. -/
theorem genWhereLoop_args (criteria : List (String × Js)) :
    ∀ (n : Nat) (cs : List String) (a : List Js),
      (genWhereLoop criteria n cs a).2
        = a ++ (criteria.filter (fun p => p.2.isString)).map Prod.snd := by
  induction criteria with
  | nil => intro n cs a; simp [genWhereLoop]
  | cons hd tl ih =>
    intro n cs a
    obtain ⟨field, value⟩ := hd
    by_cases hs : value.isString
    · simp [genWhereLoop, hs, ih]
    · simp [genWhereLoop, hs, ih]

/-- After an assignment into the registry map the name maps to the
assigned entry. -/
theorem lookupEntry_setEntry (l : List (String × RegEntry)) (name : String) (e : RegEntry) :
    lookupEntry (setEntry l name e) name = some e := by
  induction l with
  | nil => simp [setEntry, lookupEntry, List.find?]
  | cons p rest ih =>
    by_cases hp : p.1 == name
    · simp [setEntry, hp, lookupEntry, List.find?]
    · simpa [setEntry, hp, lookupEntry, List.find?] using ih

/-- Claim C1: on the managed query path, for every acquired client and
every query outcome (success, statement error, or unexpected failure
during execution), the client is acquired exactly once and released
exactly once, and the release happens before the returned promise
settles: the event trace is exactly acquire, release, settle. -/
theorem DI_simpleQuery_acquire_release_once (c : Nat) (queryResult : Nat → Except Js Js) :
    (DI_simpleQuery (.ok c) queryResult).2.events
      = [.acquire c, .release c, .settle] := by
  unfold DI_simpleQuery pThen pCatch pFinally
  cases h : queryResult c <;> simp [h]

/-- Claim C2: when the mode is recognized and fnValidate returns false,
DI_runBasicService rejects with the VALIDATION_ERROR Error carrying
exactly the codes fnValidate appended to the errorCodes array, in order,
and neither fnMakeQuery nor either execution function is invoked (only
fnValidate ran: the counts are one validation call and zero of
everything else). -/
theorem runBasicService_validation_failure (config : RunBasicServiceConfig)
    (fnOne fnMany : Js → Option Nat → Except Js Js)
    (hmode : config.oneOrMany = "one" ∨ config.oneOrMany = "many")
    (hval : (config.fnValidate config.req).1 = false) :
    DI_runBasicService config fnOne fnMany
      = (.error (validationErrorJs (config.fnValidate config.req).2),
         ⟨1, 0, 0, 0, 0, 0⟩) := by
  rcases hmode with h | h <;> simp [DI_runBasicService, h, hval]

/-- Configuration used to instantiate the validation-failure theorem. -/
def cfgValidationFailure : RunBasicServiceConfig where
  userData := .obj []
  req := .obj []
  errorCodeMap := .obj [("INVALID_ID", .str "Invalid ID.")]
  fnValidate := fun _ => (false, ["INVALID_ID"])
  fnSanitizeRequest := none
  fnDbValidate := none
  fnMakeQuery := fun _ _ => .obj []
  oneOrMany := "one"
  client := none
  configWithDone := none

/-- Witness for claim C2 at a concrete failing configuration. -/
theorem runBasicService_validation_failure_witness :
    DI_runBasicService cfgValidationFailure (fun _ _ => .ok .undefined) (fun _ _ => .ok .undefined)
      = (.error (validationErrorJs ["INVALID_ID"]), ⟨1, 0, 0, 0, 0, 0⟩) :=
  runBasicService_validation_failure cfgValidationFailure
    (fun _ _ => .ok .undefined) (fun _ _ => .ok .undefined) (Or.inl rfl) rfl

/-- Claim C3: when validation passes and database validation resolves,
DI_runBasicService with oneOrMany one invokes the one-row execution
function exactly once and the many-row function never, and symmetrically
for many; with any other mode value it invokes neither, rejects with the
SERVER_REQUEST_ERROR Error, and no pipeline step runs at all (every
invocation count is zero). -/
theorem runBasicService_mode_dispatch (config : RunBasicServiceConfig)
    (fnOne fnMany : Js → Option Nat → Except Js Js) (m : String)
    (hval : (config.fnValidate config.req).1 = true)
    (hdb : ∃ v, effectiveDbValidate config config.userData (sanitizedReq config)
            (effectiveClient config) = .ok v)
    (hm1 : m ≠ "one") (hm2 : m ≠ "many") :
    (DI_runBasicService { config with oneOrMany := "one" } fnOne fnMany).2.oneCalls = 1 ∧
    (DI_runBasicService { config with oneOrMany := "one" } fnOne fnMany).2.manyCalls = 0 ∧
    (DI_runBasicService { config with oneOrMany := "many" } fnOne fnMany).2.manyCalls = 1 ∧
    (DI_runBasicService { config with oneOrMany := "many" } fnOne fnMany).2.oneCalls = 0 ∧
    DI_runBasicService { config with oneOrMany := m } fnOne fnMany
      = (.error serverRequestErrorJs, ⟨0, 0, 0, 0, 0, 0⟩) := by
  obtain ⟨v, hv⟩ := hdb
  obtain ⟨ud, rq, ecm, fV, fS, fD, fM, oom, cl, cwd⟩ := config
  simp only [effectiveDbValidate, sanitizedReq, effectiveClient] at hv
  refine ⟨?_, ?_, ?_, ?_, ?_⟩ <;>
    simp_all [DI_runBasicService, effectiveDbValidate, sanitizedReq, effectiveClient,
      hval, hm1, hm2]

/-- Configuration used to instantiate the mode-dispatch theorem. -/
def cfgModeDispatch : RunBasicServiceConfig where
  userData := .obj []
  req := .obj []
  errorCodeMap := .obj []
  fnValidate := fun _ => (true, [])
  fnSanitizeRequest := none
  fnDbValidate := none
  fnMakeQuery := fun _ _ => .obj []
  oneOrMany := "one"
  client := none
  configWithDone := none

/-- Witness for claim C3 at a concrete configuration, with the
unrecognized mode value two. -/
theorem runBasicService_mode_dispatch_witness :
    (DI_runBasicService { cfgModeDispatch with oneOrMany := "one" }
        (fun _ _ => .ok .undefined) (fun _ _ => .ok .undefined)).2.oneCalls = 1 ∧
    (DI_runBasicService { cfgModeDispatch with oneOrMany := "one" }
        (fun _ _ => .ok .undefined) (fun _ _ => .ok .undefined)).2.manyCalls = 0 ∧
    (DI_runBasicService { cfgModeDispatch with oneOrMany := "many" }
        (fun _ _ => .ok .undefined) (fun _ _ => .ok .undefined)).2.manyCalls = 1 ∧
    (DI_runBasicService { cfgModeDispatch with oneOrMany := "many" }
        (fun _ _ => .ok .undefined) (fun _ _ => .ok .undefined)).2.oneCalls = 0 ∧
    DI_runBasicService { cfgModeDispatch with oneOrMany := "two" }
        (fun _ _ => .ok .undefined) (fun _ _ => .ok .undefined)
      = (.error serverRequestErrorJs, ⟨0, 0, 0, 0, 0, 0⟩) :=
  runBasicService_mode_dispatch cfgModeDispatch
    (fun _ _ => .ok .undefined) (fun _ _ => .ok .undefined) "two"
    rfl ⟨.obj [], rfl⟩ (by decide) (by decide)

/-- Claim C4: DI_squelQuery with an empty or absent text resolves
immediately with an empty array and never invokes the injected query
function; with a non-empty text it invokes the injected query function
exactly once, with that text, the values defaulted to an empty array
when falsy, and the optional client, and returns its settlement. -/
theorem DI_squelQuery_empty_text_short_circuit
    (fnQuery : Js → Js → Option Nat → Except Js Js)
    (q1 q2 : Js) (s : String) (client : Option Nat)
    (h1 : q1.getField "text" = .undefined ∨ q1.getField "text" = .str "")
    (h2 : q2.getField "text" = .str s) (hs : s ≠ "") :
    DI_squelQuery fnQuery q1 client = (.ok (.arr []), []) ∧
    DI_squelQuery fnQuery q2 client
      = (fnQuery (.str s)
           (if (q2.getField "values").truthy then q2.getField "values" else .arr [])
           client,
         [(.str s,
           (if (q2.getField "values").truthy then q2.getField "values" else .arr []),
           client)]) := by
  constructor
  · rcases h1 with h1 | h1 <;> simp [DI_squelQuery, h1, Js.truthy]
  · simp [DI_squelQuery, h2, Js.truthy, hs]

/-- Witness for claim C4 at concrete compiled queries without and with a
statement text. -/
theorem DI_squelQuery_empty_text_short_circuit_witness :
    DI_squelQuery (fun _ _ _ => .ok (.num 7)) (.obj []) none = (.ok (.arr []), []) ∧
    DI_squelQuery (fun _ _ _ => .ok (.num 7))
        (.obj [("text", .str "SELECT 1")]) none
      = (.ok (.num 7), [(.str "SELECT 1", .arr [], none)]) :=
  DI_squelQuery_empty_text_short_circuit (fun _ _ _ => .ok (.num 7))
    (.obj []) (.obj [("text", .str "SELECT 1")]) "SELECT 1" none
    (Or.inl rfl) rfl (by decide)

/-- Claim C5: a failed ROLLBACK statement leads to exactly one release
call on the client and the failure is not re-raised (the returned
promise settles successfully with undefined); a successful ROLLBACK
releases nothing and passes the statement result through. -/
theorem rollbackTransaction_release_on_failure (client : Nat) (e r : Js) :
    rollbackTransaction client (.error e) = (.ok .undefined, [client]) ∧
    rollbackTransaction client (.ok r) = (.ok r, []) :=
  ⟨rfl, rfl⟩

/-- Claim C6: the first getConnection call for a name not in the
registry starts exactly one pool and registers a connection whose
configuration is resolved from the override when given and truthy, else
from the configuration source selected by name and mode; every
subsequent call with that name, any mode and any new override returns
the same cached entry and leaves the state (hence the pool count)
unchanged. -/
theorem getConnection_idempotent
    (files : String → String → Option Js) (st : GlobalState)
    (name : String) (mode mode2 : Option String) (ov ov2 : Option Js)
    (h : RegEntry) (st2 : GlobalState)
    (hfresh : lookupEntry st.connections name = none)
    (hcall : getConnection files st name mode ov = .ok (h, st2)) :
    st2.poolsStarted = st.poolsStarted + 1 ∧
    Except.map (fun cfg => RegEntry.conn ⟨name, cfg, some st.nextPoolId⟩)
        (resolveConfig files name (defaultedMode mode) ov) = .ok h ∧
    lookupEntry st2.connections name = some h ∧
    getConnection files st2 name mode2 ov2 = .ok (h, st2) := by
  unfold getConnection at hcall
  rw [hfresh] at hcall
  cases hres : resolveConfig files name (defaultedMode mode) ov with
  | error e =>
    simp only [hres, startPool] at hcall
    simp at hcall
  | ok cfg =>
    simp only [hres, startPool, Except.ok.injEq, Prod.mk.injEq] at hcall
    obtain ⟨hh, hst⟩ := hcall
    subst hh
    subst hst
    refine ⟨rfl, by simp [hres, Except.map], lookupEntry_setEntry .., ?_⟩
    unfold getConnection
    rw [lookupEntry_setEntry]

/-- Filesystem oracle used to instantiate the idempotence theorem. -/
def filesWitness : String → String → Option Js :=
  fun _ _ => some (.obj [("config", .obj [("verbose", .bool false)])])

/-- The entry the first witness call registers. -/
def entryWitness : RegEntry :=
  .conn ⟨"db", .obj [("config", .obj [("verbose", .bool false)])], some 0⟩

/-- Witness for claim C6 from the empty registry, with a changed mode
and a new override on the second call. -/
theorem getConnection_idempotent_witness :
    (GlobalState.mk [("db", entryWitness)] 1 1).poolsStarted
      = (GlobalState.mk [] 0 0).poolsStarted + 1 ∧
    Except.map (fun cfg => RegEntry.conn ⟨"db", cfg, some (GlobalState.mk [] 0 0).nextPoolId⟩)
        (resolveConfig filesWitness "db" (defaultedMode none) none) = .ok entryWitness ∧
    lookupEntry (GlobalState.mk [("db", entryWitness)] 1 1).connections "db"
      = some entryWitness ∧
    getConnection filesWitness (GlobalState.mk [("db", entryWitness)] 1 1) "db"
        (some "standalone") (some (.obj [("x", .num 1)]))
      = .ok (entryWitness, GlobalState.mk [("db", entryWitness)] 1 1) :=
  getConnection_idempotent filesWitness (GlobalState.mk [] 0 0) "db"
    none (some "standalone") none (some (.obj [("x", .num 1)]))
    entryWitness (GlobalState.mk [("db", entryWitness)] 1 1) rfl rfl

/-- Claim C7: a query result without a rows field projects to the empty
array and one with a rows field projects to that field unchanged; the
empty row array reduces to the empty object and a non-empty row array
reduces to its first row. -/
theorem projection_rules (qr1 qr2 r : Js) (rest : List Js)
    (h1 : qr1.hasField "rows" = false)
    (h2 : qr2.hasField "rows" = true) :
    turnQueryResultIntoRows qr1 = .arr [] ∧
    turnQueryResultIntoRows qr2 = qr2.getField "rows" ∧
    turnRowsIntoSingleResult (.arr []) = .obj [] ∧
    turnRowsIntoSingleResult (.arr (r :: rest)) = r := by
  refine ⟨?_, ?_, rfl, ?_⟩ <;>
    simp [turnQueryResultIntoRows, turnRowsIntoSingleResult, h1, h2,
      Js.truthy, Js.lengthPos, Js.index0]

/-- Witness for claim C7 on the scenario rows of the specification. -/
theorem projection_rules_witness :
    turnQueryResultIntoRows (.obj [("rowCount", .num 0)]) = .arr [] ∧
    turnQueryResultIntoRows
        (.obj [("rows", .arr [.obj [("id", .num 1)], .obj [("id", .num 2)]])])
      = .arr [.obj [("id", .num 1)], .obj [("id", .num 2)]] ∧
    turnRowsIntoSingleResult (.arr []) = .obj [] ∧
    turnRowsIntoSingleResult (.arr (.obj [("id", .num 1)] :: [.obj [("id", .num 2)]]))
      = .obj [("id", .num 1)] :=
  projection_rules (.obj [("rowCount", .num 0)])
    (.obj [("rows", .arr [.obj [("id", .num 1)], .obj [("id", .num 2)]])])
    (.obj [("id", .num 1)]) [.obj [("id", .num 2)]] rfl rfl

/-- Claim C8: the scenario of the specification, and the general shape
of the conditions: genWhereLikePrefixConditions on the firstName and
lastName criteria with empty prior args yields the two LIKE-prefix
conditions with placeholders one and two and the args Ja and Br; in
general each string-valued criteria entry, in order, yields one
condition whose column name is the SQL-style conversion of the key and
whose placeholder number continues from one past the length of the
incoming args array. -/
theorem genWhere_prefix_scenario :
    genWhereLikePrefixConditions
        [("firstName", .str "Ja"), ("lastName", .str "Br")] (some [])
      = (["\"first_name\" LIKE $1 || '%'", "\"last_name\" LIKE $2 || '%'"],
         [.str "Ja", .str "Br"]) ∧
    ∀ (criteria : List (String × Js)) (args : List Js),
      (genWhereLikePrefixConditions criteria (some args)).1
        = ((criteria.filter (fun p => p.2.isString)).enumFrom (args.length + 1)).map
            (fun p => likeCond (jsName2SqlName p.2.1) p.1) := by
  refine ⟨rfl, ?_⟩
  intro criteria args
  simp [genWhereLikePrefixConditions, genWhereLoop_conditions]

/-- Claim C9: genWhereLikePrefixConditions silently skips every
non-string criteria value: the result is unchanged when criteria is
restricted to its string-valued entries, the number of conditions equals
the number of string-valued entries, and the returned args length is the
incoming args length plus that same count. -/
theorem genWhere_skips_nonstrings (criteria : List (String × Js)) (args : Option (List Js)) :
    genWhereLikePrefixConditions criteria args
      = genWhereLikePrefixConditions (criteria.filter (fun p => p.2.isString)) args ∧
    (genWhereLikePrefixConditions criteria args).1.length
      = (criteria.filter (fun p => p.2.isString)).length ∧
    (genWhereLikePrefixConditions criteria args).2.length
      = (match args with | none => 0 | some a => a.length)
        + (criteria.filter (fun p => p.2.isString)).length := by
  have hfix : (criteria.filter (fun p => p.2.isString)).filter (fun p => p.2.isString)
      = criteria.filter (fun p => p.2.isString) := by
    simp [List.filter_filter]
  refine ⟨?_, ?_, ?_⟩
  · cases args <;>
      refine Prod.ext ?_ ?_ <;>
      simp [genWhereLikePrefixConditions, genWhereLoop_conditions, genWhereLoop_args, hfix]
  · cases args <;>
      simp [genWhereLikePrefixConditions, genWhereLoop_conditions, List.enumFrom_length]
  · cases args <;> simp [genWhereLikePrefixConditions, genWhereLoop_args]

/-- Claim C10: with the array heap explicit, genWhereLikePrefixConditions
never mutates any existing array; in particular the array the caller
passed is unchanged, and the args array it returns is a fresh reference
holding a copy of the input extended with the new values. -/
theorem genWhereStore_frame (criteria : List (String × Js)) (store : List (List Js))
    (r i : Nat) (hr : r < store.length) (hi : i < store.length) :
    (genWhereLikePrefixConditionsStore criteria store (some r)).2.2.getD i []
      = store.getD i [] ∧
    (genWhereLikePrefixConditionsStore criteria store (some r)).2.1 = store.length ∧
    (genWhereLikePrefixConditionsStore criteria store (some r)).2.2.getD store.length []
      = store.getD r [] ++ (criteria.filter (fun p => p.2.isString)).map Prod.snd := by
  unfold genWhereLikePrefixConditionsStore
  refine ⟨?_, rfl, ?_⟩
  · simp [List.getD_eq_getElem?_getD, List.getElem?_append_left hi]
  · simp [List.getD_eq_getElem?_getD, List.getElem?_concat_length, genWhereLoop_args]

/-- Witness for claim C10 with one pre-existing array holding one
element and one string-valued criteria entry. -/
theorem genWhereStore_frame_witness :
    (genWhereLikePrefixConditionsStore [("firstName", Js.str "Ja")]
        [[Js.str "x"]] (some 0)).2.2.getD 0 [] = [Js.str "x"] ∧
    (genWhereLikePrefixConditionsStore [("firstName", Js.str "Ja")]
        [[Js.str "x"]] (some 0)).2.1 = 1 ∧
    (genWhereLikePrefixConditionsStore [("firstName", Js.str "Ja")]
        [[Js.str "x"]] (some 0)).2.2.getD 1 [] = [Js.str "x", Js.str "Ja"] :=
  genWhereStore_frame [("firstName", Js.str "Ja")] [[Js.str "x"]] 0 0
    (by decide) (by decide)
